import Mathlib

/-!
Shallow embedding of the `deploy_web` frontend library logic of the
bjj_clipping repository, together with theorems checking the
natural-language specification against it.

The embedded code comes from:
* `deploy_web/frontend/src/app/data/api.ts` (the Remote Data Client),
* `deploy_web/frontend/src/app/components/library.tsx` (cache store and
  library state controller).

Timestamps are modelled as integers (milliseconds, as produced by
`Date.now()`); JavaScript string sets are modelled as lists with
membership, and `sessionStorage` is modelled as a per-key cell that can be
missing, hold a well-formed serialized snapshot, hold a corrupt value
(one on which `JSON.parse` throws), or throw on any access.
-/

namespace BjjClipping

/-- Sort modes of the library view (`type SortMode` in `library.tsx`). -/
inductive SortMode where
  | default
  | shortest
  | longest
  deriving DecidableEq

/-- The `Clip` record of the Remote Data Client (`api.ts`).  Optional string
fields become `Option String`; the optional boolean `isFavorite` is modelled
as a `Bool` (JS `undefined` behaves as `false` under `!`). -/
structure Clip where
  id : String
  videoId : String
  title : String
  type : String
  duration : Nat
  tags : List String
  mainTags : List String
  videoTags : List String
  subTags : List String
  position : Option String
  sourceCourse : String
  sourceVideo : Option String
  timestampStart : String
  timestampEnd : String
  summary : String
  isFavorite : Bool
  createdAt : String
  filePath : String
  thumbnailUrl : Option String
  deriving DecidableEq

/-- The `LibraryMeta` record of `api.ts`. -/
structure LibraryMeta where
  mainTagOptions : List String
  videoTagOptions : List String
  subTagOptions : List String
  positionOptions : List String
  deriving DecidableEq

/-- The `VideoItem` record of `api.ts`. -/
structure VideoItem where
  id : String
  title : String
  summary : String
  filePath : String
  clipCount : Nat
  mainTags : List String
  subTags : List String
  createdAt : String
  deriving DecidableEq

/-- The `ClipsPage` server response envelope of `api.ts`. -/
structure ClipsPage where
  clips : List Clip
  limit : Nat
  offset : Nat
  nextOffset : Nat
  hasMore : Bool
  deriving DecidableEq

/-- The `CachedLibraryState` snapshot persisted by the cache store
(`library.tsx`).  `cachedAt` is a millisecond timestamp. -/
structure CachedLibraryState where
  clips : List Clip
  hasMoreFromServer : Bool
  nextOffset : Nat
  mainTagOptions : List String
  videoTagOptions : List String
  subTagOptions : List String
  positionOptions : List String
  cachedAt : Int
  deriving DecidableEq

/-! ### String helpers

JavaScript `String.prototype.includes`, `String.prototype.toLowerCase` and
the default `Array.prototype.sort` comparison are modelled over character
lists. -/

/-- The first list is an initial run of the second. -/
def charsLead : List Char → List Char → Bool
  | [], _ => true
  | _ :: _, [] => false
  | a :: as, b :: bs => a == b && charsLead as bs

/-- The list `q` occurs contiguously inside the second list. -/
def hasSubChars (q : List Char) : List Char → Bool
  | [] => q.isEmpty
  | c :: rest => charsLead q (c :: rest) || hasSubChars q rest

/-- Model of JS `s.includes(q)`. -/
def jsIncludes (s q : String) : Bool :=
  hasSubChars q.data s.data

/-- Model of JS `s.toLowerCase()`: lower each character. -/
def strLower (s : String) : String :=
  String.mk (s.data.map Char.toLower)

/-- Strict lexicographic comparison of character lists, the order used by the
default JS `Array.prototype.sort` on strings. -/
def charListLt : List Char → List Char → Bool
  | [], [] => false
  | [], _ :: _ => true
  | _ :: _, [] => false
  | a :: as, b :: bs => decide (a < b) || (a == b && charListLt as bs)

/-- Boolean "less or equal" on strings derived from `charListLt`. -/
def jsStrLe (a b : String) : Bool :=
  !(charListLt b.data a.data)

/-- Insertion of an element into a list sorted by the boolean relation `le`. -/
def insertLe {α : Type} (le : α → α → Bool) (a : α) : List α → List α
  | [] => [a]
  | b :: bs => if le a b then a :: b :: bs else b :: insertLe le a bs

/-- Insertion sort by the boolean relation `le`; the model of JS
`Array.prototype.sort` (only the contents matter for the claims below). -/
def sortLe {α : Type} (le : α → α → Bool) : List α → List α
  | [] => []
  | a :: as => insertLe le a (sortLe le as)

/-- Model of JS `new Set(l)` spread back into an array: keep the first
occurrence of each element, in order.  `seen` accumulates the elements
already emitted. -/
def dedupFirstAux (seen : List String) : List String → List String
  | [] => []
  | x :: xs =>
    if seen.contains x then dedupFirstAux seen xs
    else x :: dedupFirstAux (x :: seen) xs

/-- Model of `Array.from(new Set(l))`. -/
def dedupFirst (l : List String) : List String :=
  dedupFirstAux [] l

/-- Model of `Array.from(new Set(l)).sort()` as used for tag option lists. -/
def jsSetSort (l : List String) : List String :=
  sortLe jsStrLe (dedupFirst l)

/-! ### Cache store (`library.tsx`, lines 24-84) -/

/-- `CACHE_TTL_MS = 10 * 60 * 1000`. -/
def CACHE_TTL_MS : Int := 10 * 60 * 1000

/-- `cacheKey` from `library.tsx`. -/
def cacheKey (favoritesOnly : Bool) : String :=
  "clip-library:" ++ (if favoritesOnly then "favorites" else "all")

/-- One `sessionStorage` cell: absent, holding a well-formed serialized
snapshot, holding a value on which `JSON.parse` throws, or throwing on any
access (quota / disabled storage). -/
inductive SessCell where
  | missing
  | corrupt
  | throwing
  | stored (state : CachedLibraryState)
  deriving DecidableEq

/-- The two cache tiers: the module-level `memoryCache` map and the
per-session persistent store, both keyed by strings. -/
structure CacheState where
  mem : String → Option CachedLibraryState
  sess : String → SessCell

/-- A cache with nothing stored and a working persistent tier. -/
def emptyCache : CacheState :=
  { mem := fun _ => none, sess := fun _ => SessCell.missing }

/-- `writeCachedState`: write-through to both tiers; a throwing persistent
cell swallows `setItem` (the `try`/`catch` around it), leaving it throwing. -/
def writeCachedState (favoritesOnly : Bool) (state : CachedLibraryState)
    (c : CacheState) : CacheState :=
  let key := cacheKey favoritesOnly
  { mem := fun k => if k = key then some state else c.mem k,
    sess := fun k =>
      if k = key then
        match c.sess key with
        | SessCell.throwing => SessCell.throwing
        | _ => SessCell.stored state
      else c.sess k }

/-- `clearLibraryCaches`: delete both variants' entries from both tiers;
`removeItem` failures are swallowed. -/
def clearLibraryCaches (c : CacheState) : CacheState :=
  { mem := fun k =>
      if k = cacheKey false ∨ k = cacheKey true then none else c.mem k,
    sess := fun k =>
      if k = cacheKey false ∨ k = cacheKey true then
        match c.sess k with
        | SessCell.throwing => SessCell.throwing
        | _ => SessCell.missing
      else c.sess k }

/-- The persistent-tier half of `readCachedState` (the `try` block): a
throwing or corrupt cell is caught and reported as a miss; a stale stored
entry is removed; a fresh stored entry is promoted into memory. -/
def readSessionTier (key : String) (now : Int) (c : CacheState) :
    Option CachedLibraryState × CacheState :=
  match c.sess key with
  | SessCell.throwing => (none, c)
  | SessCell.missing => (none, c)
  | SessCell.corrupt => (none, c)
  | SessCell.stored parsed =>
    if CACHE_TTL_MS ≤ now - parsed.cachedAt then
      (none, { c with sess := fun k => if k = key then SessCell.missing else c.sess k })
    else
      (some parsed, { c with mem := fun k => if k = key then some parsed else c.mem k })

/-- `readCachedState`: memory tier first, re-validated by
`now - cachedAt < CACHE_TTL_MS`; on a memory miss or stale memory entry,
fall back to the persistent tier. -/
def readCachedState (favoritesOnly : Bool) (now : Int) (c : CacheState) :
    Option CachedLibraryState × CacheState :=
  let key := cacheKey favoritesOnly
  match c.mem key with
  | some inMemory =>
    if now - inMemory.cachedAt < CACHE_TTL_MS then (some inMemory, c)
    else readSessionTier key now c
  | none => readSessionTier key now c

/-! ### Remote Data Client (`api.ts`)

Each operation performs exactly one HTTP request; it is modelled as a
function of the single response to that request, so no retry can occur by
construction.  A response is its `ok` flag plus the (already parsed) body. -/

/-- An HTTP response as seen through `fetch`: the `ok` flag (2xx) and the
parsed JSON body. -/
structure HttpResponse (β : Type) where
  ok : Bool
  body : β

/-- Body shape of the `/api/library/videos` endpoint. -/
structure VideosBody where
  videos : List VideoItem

/-- `fetchLibraryMeta` from `api.ts`. -/
def fetchLibraryMeta (r : HttpResponse LibraryMeta) : Except String LibraryMeta :=
  if !r.ok then Except.error "Failed to load library metadata"
  else Except.ok r.body

/-- `fetchLibraryClips` from `api.ts`. -/
def fetchLibraryClips (r : HttpResponse ClipsPage) : Except String ClipsPage :=
  if !r.ok then Except.error "Failed to load clips"
  else Except.ok r.body

/-- `fetchFavoriteClips` from `api.ts`. -/
def fetchFavoriteClips (r : HttpResponse ClipsPage) : Except String ClipsPage :=
  if !r.ok then Except.error "Failed to load favorite clips"
  else Except.ok r.body

/-- `setClipFavorite` from `api.ts` (no response body is required). -/
def setClipFavorite (r : HttpResponse Unit) : Except String Unit :=
  if !r.ok then Except.error "Failed to update favorite"
  else Except.ok ()

/-- `fetchVideos` from `api.ts` (unwraps the `videos` field). -/
def fetchVideos (r : HttpResponse VideosBody) : Except String (List VideoItem) :=
  if !r.ok then Except.error "Failed to load videos"
  else Except.ok r.body.videos

/-! ### Library state controller (`library.tsx`) -/

/-- `PAGE_SIZE = 30`. -/
def PAGE_SIZE : Nat := 30

/-- Network requests the controller can issue, mirroring the endpoints of
the Remote Data Client. -/
inductive Request where
  | meta
  | clips (limit offset : Nat)
  | favorites (limit offset : Nat)
  | favoriteSet (clipId : String) (value : Bool)
  | videos
  deriving DecidableEq

/-- The React state of one `ClipLibraryPage` instance, plus the module-level
cache it shares with the other variant. -/
structure LibState where
  favoritesOnly : Bool
  clips : List Clip
  hasMoreFromServer : Bool
  nextOffset : Nat
  mainTagOptions : List String
  videoTagOptions : List String
  subTagOptions : List String
  positionOptions : List String
  isLoading : Bool
  isLoadingMore : Bool
  errorMessage : Option String
  selectedClip : Option Clip
  cache : CacheState

/-- The paginated request a variant issues for a given offset. -/
def pageRequest (favoritesOnly : Bool) (offset : Nat) : Request :=
  if favoritesOnly then Request.favorites PAGE_SIZE offset
  else Request.clips PAGE_SIZE offset

/-- Synchronous prefix of `loadMoreClips`: the guard
`isLoading || isLoadingMore || !hasMoreFromServer` suppresses the call
entirely; otherwise the in-flight flag is set, the error banner cleared and
the page request issued. -/
def loadMoreInvoke (st : LibState) : Option Request × LibState :=
  if st.isLoading || st.isLoadingMore || !st.hasMoreFromServer then (none, st)
  else (some (pageRequest st.favoritesOnly st.nextOffset),
        { st with isLoadingMore := true, errorMessage := none })

/-- Completion of an in-flight `loadMoreClips` call: on success append the
page, re-union tag options, update the cursor and re-persist the cache; on
failure record the message; either way clear the in-flight flag. -/
def loadMoreComplete (st : LibState) (outcome : Except String ClipsPage)
    (now : Int) : LibState :=
  match outcome with
  | Except.error msg => { st with errorMessage := some msg, isLoadingMore := false }
  | Except.ok page =>
    let mainFromClips := jsSetSort (page.clips.flatMap (fun clip => clip.mainTags))
    let videoFromClips := jsSetSort (page.clips.flatMap (fun clip => clip.videoTags))
    let subFromClips := jsSetSort (page.clips.flatMap (fun clip => clip.subTags))
    let mergedMain := jsSetSort (st.mainTagOptions ++ mainFromClips)
    let mergedVideo := jsSetSort (st.videoTagOptions ++ videoFromClips)
    let mergedSub := jsSetSort (st.subTagOptions ++ subFromClips)
    let nextClips := st.clips ++ page.clips
    { st with
      clips := nextClips,
      mainTagOptions := mergedMain,
      videoTagOptions := mergedVideo,
      subTagOptions := mergedSub,
      hasMoreFromServer := page.hasMore,
      nextOffset := page.nextOffset,
      isLoadingMore := false,
      cache := writeCachedState st.favoritesOnly
        { clips := nextClips,
          hasMoreFromServer := page.hasMore,
          nextOffset := page.nextOffset,
          mainTagOptions := mergedMain,
          videoTagOptions := mergedVideo,
          subTagOptions := mergedSub,
          positionOptions := st.positionOptions,
          cachedAt := now } st.cache }

/-- Delay of the background prefetch effect (`setTimeout(..., 350)`). -/
def PREFETCH_DELAY_MS : Nat := 350

/-- Whether the background prefetch effect schedules a `loadMoreClips` call:
it returns early under exactly the same condition as the `loadMoreClips`
guard. -/
def prefetchWillFire (st : LibState) : Bool :=
  !(st.isLoading || st.isLoadingMore || !st.hasMoreFromServer)

/-- Hydration of component state from a cache snapshot (the cache branch of
the first-page effect). -/
def hydrateFromCache (st : LibState) (cached : CachedLibraryState) : LibState :=
  { st with
    clips := cached.clips,
    hasMoreFromServer := cached.hasMoreFromServer,
    nextOffset := cached.nextOffset,
    mainTagOptions := cached.mainTagOptions,
    videoTagOptions := cached.videoTagOptions,
    subTagOptions := cached.subTagOptions,
    positionOptions := cached.positionOptions,
    isLoading := false }

/-- State right after the activation effects run synchronously: a fresh
cache hit hydrates and lands in idle; a miss starts `loadFirstPage`. -/
def activationHydrate (st : LibState) (now : Int) : LibState :=
  match (readCachedState st.favoritesOnly now st.cache).fst with
  | some cached => hydrateFromCache st cached
  | none => { st with isLoading := true, errorMessage := none }

/-- Requests issued while the component mounts: the `loadMeta` effect always
fetches library metadata, and the first-page effect fetches page one only on
a cache miss. -/
def activationRequests (st : LibState) (now : Int) : List Request :=
  Request.meta ::
    (match (readCachedState st.favoritesOnly now st.cache).fst with
     | some _ => []
     | none => [pageRequest st.favoritesOnly 0])

/-- Optimistic phase of `handleToggleFavorite`: flip the flag on the list
entry and on the selected-clip view before the network call resolves. -/
def toggleOptimistic (st : LibState) (clip : Clip) : LibState :=
  let next := !clip.isFavorite
  { st with
    clips := st.clips.map (fun item =>
      if item.id = clip.id then { item with isFavorite := next } else item),
    selectedClip := st.selectedClip.map (fun prev =>
      if prev.id = clip.id then { prev with isFavorite := next } else prev) }

/-- `handleToggleFavorite`, as a function of whether the underlying
`setClipFavorite` call succeeds.  On success both cache variants are
cleared, then the current variant is re-persisted (after removing the clip
in favorites-only mode when it was unfavorited, also clearing the selected
clip).  On failure both the list entry and the selected-clip view are
mapped back to the pre-toggle flag and the cache is untouched. -/
def handleToggleFavorite (st : LibState) (clip : Clip) (now : Int)
    (callOk : Bool) : LibState :=
  let next := !clip.isFavorite
  let st1 := toggleOptimistic st clip
  if callOk then
    let st2 := { st1 with cache := clearLibraryCaches st1.cache }
    if st.favoritesOnly && !next then
      let nextClips := st2.clips.filter (fun item => item.id ≠ clip.id)
      { st2 with
        selectedClip := none,
        clips := nextClips,
        cache := writeCachedState st.favoritesOnly
          { clips := nextClips,
            hasMoreFromServer := st.hasMoreFromServer,
            nextOffset := st.nextOffset,
            mainTagOptions := st.mainTagOptions,
            videoTagOptions := st.videoTagOptions,
            subTagOptions := st.subTagOptions,
            positionOptions := st.positionOptions,
            cachedAt := now } st2.cache }
    else
      let nextClips := st.clips.map (fun item =>
        if item.id = clip.id then { item with isFavorite := next } else item)
      { st2 with
        cache := writeCachedState st.favoritesOnly
          { clips := nextClips,
            hasMoreFromServer := st.hasMoreFromServer,
            nextOffset := st.nextOffset,
            mainTagOptions := st.mainTagOptions,
            videoTagOptions := st.videoTagOptions,
            subTagOptions := st.subTagOptions,
            positionOptions := st.positionOptions,
            cachedAt := now } st2.cache }
  else
    { st1 with
      clips := st1.clips.map (fun item =>
        if item.id = clip.id then { item with isFavorite := !next } else item),
      selectedClip := st1.selectedClip.map (fun prev =>
        if prev.id = clip.id then { prev with isFavorite := !next } else prev) }

/-! ### Filtering and sorting (`library.tsx`, `filteredClips` memo) -/

/-- The free-text search predicate: case-insensitive substring of the title,
the summary or some general tag (`query` is already lowered). -/
def clipMatchesSearch (clip : Clip) (query : String) : Bool :=
  jsIncludes (strLower clip.title) query ||
  jsIncludes (strLower clip.summary) query ||
  clip.tags.any (fun tag => jsIncludes (strLower tag) query)

/-- The `filteredClips` memo: sequential facet filters followed by the sort
switch.  Truthiness of `searchQuery` is emptiness of the string, truthiness
of `clip.position` requires a present and non-empty position. -/
def filteredClips (clips : List Clip) (searchQuery : String)
    (selectedTypes selectedMainTags selectedVideoTags selectedSubTags
      selectedPositions : List String) (sortMode : SortMode) : List Clip :=
  let result := clips
  let result := if searchQuery = "" then result else
    result.filter (fun clip => clipMatchesSearch clip (strLower searchQuery))
  let result := if selectedTypes = [] then result else
    result.filter (fun clip => selectedTypes.contains clip.type)
  let result := if selectedMainTags = [] then result else
    result.filter (fun clip => clip.mainTags.any (fun tag => selectedMainTags.contains tag))
  let result := if selectedVideoTags = [] then result else
    result.filter (fun clip => clip.videoTags.any (fun tag => selectedVideoTags.contains tag))
  let result := if selectedSubTags = [] then result else
    result.filter (fun clip => clip.subTags.any (fun tag => selectedSubTags.contains tag))
  let result := if selectedPositions = [] then result else
    result.filter (fun clip =>
      match clip.position with
      | none => false
      | some p => if p = "" then false else selectedPositions.contains p)
  match sortMode with
  | SortMode.shortest => sortLe (fun a b => decide (a.duration ≤ b.duration)) result
  | SortMode.longest => sortLe (fun a b => decide (b.duration ≤ a.duration)) result
  | SortMode.default => result

/-- The facet acceptance predicate exactly as claim C1 words it: every facet
with at least one selection must accept the clip; a facet with selections
accepts the clip when it matches at least one selected value; a facet
without selections accepts every clip. -/
def claimAccepts (clip : Clip) (searchQuery : String)
    (selectedTypes selectedMainTags selectedVideoTags selectedSubTags
      selectedPositions : List String) : Prop :=
  (searchQuery ≠ "" → clipMatchesSearch clip (strLower searchQuery) = true) ∧
  (selectedTypes ≠ [] → clip.type ∈ selectedTypes) ∧
  (selectedMainTags ≠ [] → ∃ tag ∈ clip.mainTags, tag ∈ selectedMainTags) ∧
  (selectedVideoTags ≠ [] → ∃ tag ∈ clip.videoTags, tag ∈ selectedVideoTags) ∧
  (selectedSubTags ≠ [] → ∃ tag ∈ clip.subTags, tag ∈ selectedSubTags) ∧
  (selectedPositions ≠ [] → ∃ p, clip.position = some p ∧ p ∈ selectedPositions)

/-- The facet acceptance predicate the code implements: as `claimAccepts`,
except that the position facet additionally requires the clip's position to
be non-empty (JS truthiness of `clip.position`). -/
def codeAccepts (clip : Clip) (searchQuery : String)
    (selectedTypes selectedMainTags selectedVideoTags selectedSubTags
      selectedPositions : List String) : Prop :=
  (searchQuery ≠ "" → clipMatchesSearch clip (strLower searchQuery) = true) ∧
  (selectedTypes ≠ [] → clip.type ∈ selectedTypes) ∧
  (selectedMainTags ≠ [] → ∃ tag ∈ clip.mainTags, tag ∈ selectedMainTags) ∧
  (selectedVideoTags ≠ [] → ∃ tag ∈ clip.videoTags, tag ∈ selectedVideoTags) ∧
  (selectedSubTags ≠ [] → ∃ tag ∈ clip.subTags, tag ∈ selectedSubTags) ∧
  (selectedPositions ≠ [] →
    ∃ p, clip.position = some p ∧ p ≠ "" ∧ p ∈ selectedPositions)

/-! ### Helper lemmas -/

theorem mem_insertLe {α : Type} (le : α → α → Bool) (a x : α) (l : List α) :
    x ∈ insertLe le a l ↔ x = a ∨ x ∈ l := by
  induction l with
  | nil => simp [insertLe]
  | cons b bs ih =>
    by_cases h : le a b = true
    · simp only [insertLe, if_pos h, List.mem_cons]
    · simp only [insertLe, if_neg h, List.mem_cons, ih]
      tauto

theorem mem_sortLe {α : Type} (le : α → α → Bool) (x : α) (l : List α) :
    x ∈ sortLe le l ↔ x ∈ l := by
  induction l with
  | nil => simp [sortLe]
  | cons a as ih => simp [sortLe, mem_insertLe, ih]

theorem mem_dedupFirstAux (seen l : List String) (x : String) :
    x ∈ dedupFirstAux seen l ↔ x ∈ l ∧ x ∉ seen := by
  induction l generalizing seen with
  | nil => simp [dedupFirstAux]
  | cons a as ih =>
    by_cases h : seen.contains a
    · have ha : a ∈ seen := by simpa using h
      simp only [dedupFirstAux, if_pos h, ih, List.mem_cons]
      constructor
      · tauto
      · rintro ⟨hx | hx, hns⟩
        · exact absurd ha (hx ▸ hns)
        · exact ⟨hx, hns⟩
    · have ha : a ∉ seen := by simpa using h
      simp only [dedupFirstAux, if_neg h, List.mem_cons, ih, List.mem_cons]
      constructor
      · rintro (rfl | ⟨hx, hns⟩)
        · exact ⟨Or.inl rfl, ha⟩
        · refine ⟨Or.inr hx, fun hc => hns (Or.inr hc)⟩
      · rintro ⟨rfl | hx, hns⟩
        · exact Or.inl rfl
        · by_cases hxa : x = a
          · exact Or.inl hxa
          · exact Or.inr ⟨hx, by simp [hxa, hns]⟩

theorem mem_dedupFirst (l : List String) (x : String) :
    x ∈ dedupFirst l ↔ x ∈ l := by
  simp [dedupFirst, mem_dedupFirstAux]

theorem mem_jsSetSort (l : List String) (x : String) :
    x ∈ jsSetSort l ↔ x ∈ l := by
  simp [jsSetSort, mem_sortLe, mem_dedupFirst]

theorem cacheKey_ne (fav : Bool) : cacheKey (!fav) ≠ cacheKey fav := by
  cases fav <;> decide

/-! ### C8: Remote Data Client error behavior -/

/-- C8: for every Remote Data Client JSON operation, a non-2xx response
fails with the endpoint-specific human-readable message, and a 2xx response
yields the parsed body (`()` for `setClipFavorite`, the unwrapped `videos`
array for `fetchVideos`).  Each operation is a function of the single
response to its one request, so no retry occurs by construction. -/
theorem remote_client_http_behavior
    (r1 : HttpResponse LibraryMeta) (r2 r3 : HttpResponse ClipsPage)
    (r4 : HttpResponse Unit) (r5 : HttpResponse VideosBody) :
    (r1.ok = false → fetchLibraryMeta r1 = Except.error "Failed to load library metadata") ∧
    (r1.ok = true → fetchLibraryMeta r1 = Except.ok r1.body) ∧
    (r2.ok = false → fetchLibraryClips r2 = Except.error "Failed to load clips") ∧
    (r2.ok = true → fetchLibraryClips r2 = Except.ok r2.body) ∧
    (r3.ok = false → fetchFavoriteClips r3 = Except.error "Failed to load favorite clips") ∧
    (r3.ok = true → fetchFavoriteClips r3 = Except.ok r3.body) ∧
    (r4.ok = false → setClipFavorite r4 = Except.error "Failed to update favorite") ∧
    (r4.ok = true → setClipFavorite r4 = Except.ok ()) ∧
    (r5.ok = false → fetchVideos r5 = Except.error "Failed to load videos") ∧
    (r5.ok = true → fetchVideos r5 = Except.ok r5.body.videos) := by
  refine ⟨?_, ?_, ?_, ?_, ?_, ?_, ?_, ?_, ?_, ?_⟩ <;>
    intro h <;>
    simp [fetchLibraryMeta, fetchLibraryClips, fetchFavoriteClips,
      setClipFavorite, fetchVideos, h]

/-- A sample library metadata value. -/
def sampleMeta : LibraryMeta :=
  { mainTagOptions := ["guard"], videoTagOptions := [],
    subTagOptions := [], positionOptions := ["mount"] }

/-- A sample empty page. -/
def samplePage : ClipsPage :=
  { clips := [], limit := 30, offset := 0, nextOffset := 30, hasMore := true }

/-- Witness for C8 at concrete responses. -/
theorem remote_client_http_behavior_witness :
    fetchLibraryMeta ⟨false, sampleMeta⟩ =
      Except.error "Failed to load library metadata" ∧
    fetchLibraryMeta ⟨true, sampleMeta⟩ = Except.ok sampleMeta ∧
    fetchLibraryClips ⟨false, samplePage⟩ = Except.error "Failed to load clips" ∧
    setClipFavorite ⟨true, ()⟩ = Except.ok () ∧
    fetchVideos ⟨true, ⟨[]⟩⟩ = Except.ok [] := by
  have h := remote_client_http_behavior ⟨false, sampleMeta⟩ ⟨false, samplePage⟩
    ⟨true, samplePage⟩ ⟨true, ()⟩ (⟨true, ⟨[]⟩⟩ : HttpResponse VideosBody)
  have h2 := remote_client_http_behavior ⟨true, sampleMeta⟩ ⟨false, samplePage⟩
    ⟨true, samplePage⟩ ⟨true, ()⟩ (⟨true, ⟨[]⟩⟩ : HttpResponse VideosBody)
  exact ⟨h.1 rfl, h2.2.1 rfl, h.2.2.1 rfl, h.2.2.2.2.2.2.2.1 rfl,
    h.2.2.2.2.2.2.2.2.2 rfl⟩

/-! ### C9: cache variant isolation -/

/-- C9: writing a cache snapshot for one view variant never alters the other
variant's entry, in either the memory tier or the persistent tier. -/
theorem write_cached_state_variant_isolation
    (c : CacheState) (fav : Bool) (e : CachedLibraryState) :
    (writeCachedState fav e c).mem (cacheKey (!fav)) = c.mem (cacheKey (!fav)) ∧
    (writeCachedState fav e c).sess (cacheKey (!fav)) = c.sess (cacheKey (!fav)) := by
  have hne := cacheKey_ne fav
  constructor <;> simp [writeCachedState, if_neg hne]

/-! ### C3: cache TTL -/

/-- C3: after a snapshot with capture timestamp `cachedAt` is written, a
read at time `now` returns that snapshot exactly when
`now - cachedAt < CACHE_TTL_MS` (ten minutes); when the entry is stale and
the persistent tier is accessible, the stale read removes the persistent
entry. -/
theorem cache_ttl_hit_iff_fresh
    (c : CacheState) (fav : Bool) (e : CachedLibraryState) (now : Int) :
    ((readCachedState fav now (writeCachedState fav e c)).fst = some e ↔
      now - e.cachedAt < CACHE_TTL_MS) ∧
    (c.sess (cacheKey fav) ≠ SessCell.throwing →
      CACHE_TTL_MS ≤ now - e.cachedAt →
      (readCachedState fav now (writeCachedState fav e c)).snd.sess (cacheKey fav) =
        SessCell.missing) := by
  have hmem : (writeCachedState fav e c).mem (cacheKey fav) = some e := by
    simp [writeCachedState]
  by_cases hfresh : now - e.cachedAt < CACHE_TTL_MS
  · constructor
    · simp [readCachedState, hmem, hfresh]
    · intro _ hstale
      omega
  · have hle : CACHE_TTL_MS ≤ now - e.cachedAt := by omega
    constructor
    · simp only [readCachedState, hmem, if_neg hfresh]
      cases hc : c.sess (cacheKey fav) with
      | throwing =>
        have hsess : (writeCachedState fav e c).sess (cacheKey fav) = SessCell.throwing := by
          simp [writeCachedState, hc]
        simp [readSessionTier, hsess, hfresh]
      | missing =>
        have hsess : (writeCachedState fav e c).sess (cacheKey fav) = SessCell.stored e := by
          simp [writeCachedState, hc]
        simp [readSessionTier, hsess, hle, hfresh]
      | corrupt =>
        have hsess : (writeCachedState fav e c).sess (cacheKey fav) = SessCell.stored e := by
          simp [writeCachedState, hc]
        simp [readSessionTier, hsess, hle, hfresh]
      | stored e' =>
        have hsess : (writeCachedState fav e c).sess (cacheKey fav) = SessCell.stored e := by
          simp [writeCachedState, hc]
        simp [readSessionTier, hsess, hle, hfresh]
    · intro hthrow _
      have hsess : (writeCachedState fav e c).sess (cacheKey fav) = SessCell.stored e := by
        cases hc : c.sess (cacheKey fav) with
        | throwing => exact absurd hc hthrow
        | missing => simp [writeCachedState, hc]
        | corrupt => simp [writeCachedState, hc]
        | stored e' => simp [writeCachedState, hc]
      simp [readCachedState, hmem, if_neg hfresh, readSessionTier, hsess, hle]

/-- A sample cache snapshot captured at time 0. -/
def sampleCached : CachedLibraryState :=
  { clips := [], hasMoreFromServer := false, nextOffset := 0,
    mainTagOptions := [], videoTagOptions := [], subTagOptions := [],
    positionOptions := [], cachedAt := 0 }

/-- Witness for C3: a snapshot captured at time 0 is a hit one millisecond
before the TTL elapses, a miss at the TTL, and the stale read clears the
persistent entry. -/
theorem cache_ttl_hit_iff_fresh_witness :
    (readCachedState false 599999 (writeCachedState false sampleCached emptyCache)).fst =
      some sampleCached ∧
    (readCachedState false 600000 (writeCachedState false sampleCached emptyCache)).fst ≠
      some sampleCached ∧
    (readCachedState false 600000 (writeCachedState false sampleCached emptyCache)).snd.sess
      (cacheKey false) = SessCell.missing := by
  refine ⟨(cache_ttl_hit_iff_fresh emptyCache false sampleCached 599999).1.mpr (by decide),
    fun hc => ?_,
    (cache_ttl_hit_iff_fresh emptyCache false sampleCached 600000).2 (by decide) (by decide)⟩
  have := (cache_ttl_hit_iff_fresh emptyCache false sampleCached 600000).1.mp hc
  revert this
  decide

/-! ### C5: load-in-progress guard -/

/-- C5: while a first-page load or a load-more is in flight, or when the
server has reported no more data, invoking `loadMoreClips` issues no
request and leaves the state unchanged; the background prefetch effect
returns early under the same condition; and right after an invocation that
did issue a request, a second invocation is suppressed, so page fetches are
strictly sequential per variant. -/
theorem load_more_guard (st : LibState)
    (h : st.isLoading = true ∨ st.isLoadingMore = true ∨
      st.hasMoreFromServer = false) :
    loadMoreInvoke st = (none, st) ∧
    prefetchWillFire st = false ∧
    (∀ st' : LibState, (loadMoreInvoke st').fst.isSome = true →
      loadMoreInvoke (loadMoreInvoke st').snd =
        (none, (loadMoreInvoke st').snd)) := by
  have hguard : (st.isLoading || st.isLoadingMore || !st.hasMoreFromServer) = true := by
    rcases h with h | h | h <;> simp [h]
  refine ⟨by simp [loadMoreInvoke, hguard], by simp [prefetchWillFire, hguard], ?_⟩
  intro st' hsome
  by_cases hg : (st'.isLoading || st'.isLoadingMore || !st'.hasMoreFromServer) = true
  · simp [loadMoreInvoke, hg] at hsome
  · have h1 : loadMoreInvoke st' =
        (some (pageRequest st'.favoritesOnly st'.nextOffset),
          { st' with isLoadingMore := true, errorMessage := none }) := by
      simp [loadMoreInvoke, hg]
    rw [h1]
    simp [loadMoreInvoke]

/-- A sample clip used by concrete witnesses. -/
def sampleClip : Clip :=
  { id := "c1", videoId := "v1", title := "Armbar from guard",
    type := "Technique", duration := 95,
    tags := ["armbar", "closed guard"], mainTags := ["armbar"],
    videoTags := ["fundamentals"], subTags := ["submission"],
    position := some "closed guard", sourceCourse := "Course A",
    sourceVideo := some "Video 1", timestampStart := "00:01:00",
    timestampEnd := "00:02:35", summary := "Classic armbar setup.",
    isFavorite := false, createdAt := "2024-01-01", filePath := "clips/c1.mp4",
    thumbnailUrl := none }

/-- A state with a load already in flight. -/
def sampleBusyState : LibState :=
  { favoritesOnly := false, clips := [sampleClip], hasMoreFromServer := true,
    nextOffset := 30, mainTagOptions := ["armbar"], videoTagOptions := [],
    subTagOptions := [], positionOptions := [], isLoading := false,
    isLoadingMore := true, errorMessage := none, selectedClip := none,
    cache := emptyCache }

/-- Witness for C5: invoking `loadMoreClips` while a load-more is in flight
does nothing. -/
theorem load_more_guard_witness :
    loadMoreInvoke sampleBusyState = (none, sampleBusyState) ∧
    prefetchWillFire sampleBusyState = false :=
  ⟨(load_more_guard sampleBusyState (Or.inr (Or.inl rfl))).1,
   (load_more_guard sampleBusyState (Or.inr (Or.inl rfl))).2.1⟩

/-! ### C10: readCachedState is total and reports bad persistent entries as
misses -/

/-- C10: a read always returns either `none` or a fresh snapshot (the
embedding is a total function covering the throwing-storage case, so no
exception escapes); and whenever the memory tier cannot answer, an absent,
corrupt or throwing persistent cell yields a miss with the cache left
unchanged. -/
theorem read_cached_state_bad_sess_is_miss
    (c : CacheState) (fav : Bool) (now : Int)
    (hmem : ∀ e, c.mem (cacheKey fav) = some e → CACHE_TTL_MS ≤ now - e.cachedAt)
    (hbad : c.sess (cacheKey fav) = SessCell.missing ∨
      c.sess (cacheKey fav) = SessCell.corrupt ∨
      c.sess (cacheKey fav) = SessCell.throwing) :
    readCachedState fav now c = (none, c) ∧
    (∀ c' : CacheState, (readCachedState fav now c').fst = none ∨
      ∃ e, (readCachedState fav now c').fst = some e ∧
        now - e.cachedAt < CACHE_TTL_MS) := by
  constructor
  · have hsess : readSessionTier (cacheKey fav) now c = (none, c) := by
      rcases hbad with hb | hb | hb <;> simp [readSessionTier, hb]
    cases hc : c.mem (cacheKey fav) with
    | none => simp [readCachedState, hc, hsess]
    | some e =>
      have hstale : ¬ now - e.cachedAt < CACHE_TTL_MS := by
        have := hmem e hc
        omega
      simp [readCachedState, hc, hstale, hsess]
  · intro c'
    have hsess : ∀ key, (readSessionTier key now c').fst = none ∨
        ∃ e, (readSessionTier key now c').fst = some e ∧
          now - e.cachedAt < CACHE_TTL_MS := by
      intro key
      cases hc : c'.sess key with
      | throwing => simp [readSessionTier, hc]
      | missing => simp [readSessionTier, hc]
      | corrupt => simp [readSessionTier, hc]
      | stored parsed =>
        by_cases hstale : CACHE_TTL_MS ≤ now - parsed.cachedAt
        · simp [readSessionTier, hc, hstale]
        · exact Or.inr ⟨parsed, by simp [readSessionTier, hc, hstale], by omega⟩
    cases hc : c'.mem (cacheKey fav) with
    | none =>
      simpa [readCachedState, hc] using hsess (cacheKey fav)
    | some inMemory =>
      by_cases hfresh : now - inMemory.cachedAt < CACHE_TTL_MS
      · exact Or.inr ⟨inMemory, by simp [readCachedState, hc, hfresh], hfresh⟩
      · simpa [readCachedState, hc, hfresh] using hsess (cacheKey fav)

/-- A cache whose persistent cell for the all-clips key is corrupt. -/
def corruptCache : CacheState :=
  { mem := fun _ => none,
    sess := fun k => if k = cacheKey false then SessCell.corrupt else SessCell.missing }

/-- Witness for C10: a corrupt persistent entry with an empty memory tier is
reported as a miss and nothing is changed. -/
theorem read_cached_state_bad_sess_is_miss_witness :
    readCachedState false 5 corruptCache = (none, corruptCache) :=
  (read_cached_state_bad_sess_is_miss corruptCache false 5
    (fun e he => by simp [corruptCache] at he) (Or.inr (Or.inl (by decide)))).1

/-! ### C4: load-more merge -/

/-- C4: a successful load-more step on an idle state with more data appends
the fetched page's clips at the end of the accumulated list, re-unions the
three tag-option sets with the tag values observed in the page, sets the
cursor to the page's `nextOffset`, adopts the page's `hasMore`, returns to
idle, and persists a cache snapshot holding exactly this merged state. -/
theorem load_more_success_merge (st : LibState) (page : ClipsPage) (now : Int)
    (h1 : st.isLoading = false) (h2 : st.isLoadingMore = false)
    (h3 : st.hasMoreFromServer = true) :
    (loadMoreInvoke st).fst = some (pageRequest st.favoritesOnly st.nextOffset) ∧
    (let st2 := loadMoreComplete (loadMoreInvoke st).snd (Except.ok page) now
     st2.clips = st.clips ++ page.clips ∧
     st2.nextOffset = page.nextOffset ∧
     st2.hasMoreFromServer = page.hasMore ∧
     st2.isLoadingMore = false ∧
     (∀ x, x ∈ st2.mainTagOptions ↔
        x ∈ st.mainTagOptions ∨ ∃ c ∈ page.clips, x ∈ c.mainTags) ∧
     (∀ x, x ∈ st2.videoTagOptions ↔
        x ∈ st.videoTagOptions ∨ ∃ c ∈ page.clips, x ∈ c.videoTags) ∧
     (∀ x, x ∈ st2.subTagOptions ↔
        x ∈ st.subTagOptions ∨ ∃ c ∈ page.clips, x ∈ c.subTags) ∧
     st2.cache.mem (cacheKey st.favoritesOnly) = some
       { clips := st.clips ++ page.clips,
         hasMoreFromServer := page.hasMore,
         nextOffset := page.nextOffset,
         mainTagOptions := st2.mainTagOptions,
         videoTagOptions := st2.videoTagOptions,
         subTagOptions := st2.subTagOptions,
         positionOptions := st.positionOptions,
         cachedAt := now }) := by
  have hinv : loadMoreInvoke st =
      (some (pageRequest st.favoritesOnly st.nextOffset),
        { st with isLoadingMore := true, errorMessage := none }) := by
    simp [loadMoreInvoke, h1, h2, h3]
  refine ⟨by rw [hinv], ?_⟩
  rw [hinv]
  simp only [loadMoreComplete]
  refine ⟨by simp, by simp, by simp, by simp, ?_, ?_, ?_, ?_⟩
  · intro x
    simp [mem_jsSetSort, List.mem_flatMap]
  · intro x
    simp [mem_jsSetSort, List.mem_flatMap]
  · intro x
    simp [mem_jsSetSort, List.mem_flatMap]
  · simp [writeCachedState]

/-- A second clip, arriving on a later page. -/
def pageClip : Clip :=
  { id := "c2", videoId := "v2", title := "Scissor sweep",
    type := "Technique", duration := 60,
    tags := ["sweep"], mainTags := ["sweep"],
    videoTags := ["fundamentals"], subTags := ["sweep"],
    position := some "closed guard", sourceCourse := "Course A",
    sourceVideo := none, timestampStart := "00:05:00",
    timestampEnd := "00:06:00", summary := "Basic scissor sweep.",
    isFavorite := true, createdAt := "2024-01-02", filePath := "clips/c2.mp4",
    thumbnailUrl := none }

/-- An idle state holding one page of clips with more available. -/
def sampleIdleState : LibState :=
  { favoritesOnly := false, clips := [sampleClip], hasMoreFromServer := true,
    nextOffset := 30, mainTagOptions := ["armbar"], videoTagOptions := [],
    subTagOptions := [], positionOptions := [], isLoading := false,
    isLoadingMore := false, errorMessage := none, selectedClip := none,
    cache := emptyCache }

/-- The second page returned by the server. -/
def samplePage2 : ClipsPage :=
  { clips := [pageClip], limit := 30, offset := 30, nextOffset := 60,
    hasMore := false }

/-- Witness for C4 at a concrete idle state and page. -/
theorem load_more_success_merge_witness :
    (loadMoreInvoke sampleIdleState).fst = some (pageRequest false 30) ∧
    (loadMoreComplete (loadMoreInvoke sampleIdleState).snd
        (Except.ok samplePage2) 1000).clips =
      sampleIdleState.clips ++ samplePage2.clips ∧
    "sweep" ∈ (loadMoreComplete (loadMoreInvoke sampleIdleState).snd
        (Except.ok samplePage2) 1000).mainTagOptions := by
  have h := load_more_success_merge sampleIdleState samplePage2 1000 rfl rfl rfl
  exact ⟨h.1, h.2.1,
    (h.2.2.2.2.2.1 "sweep").mpr (Or.inr ⟨pageClip, by decide, by decide⟩)⟩

/-! ### C2: optimistic favorite toggle with rollback -/

/-- Writing the toggled flag and then writing it back yields the original
clip, provided the clip already carried the pre-toggle flag. -/
theorem toggle_write_cancel (cid : String) (b : Bool) (a : Clip)
    (hfav : a.id = cid → a.isFavorite = b) :
    (let a1 := if a.id = cid then { a with isFavorite := !b } else a
     if a1.id = cid then { a1 with isFavorite := !(!b) } else a1) = a := by
  by_cases hid : a.id = cid
  · obtain ⟨aid, af2, af3, af4, af5, af6, af7, af8, af9, af10, af11, af12, af13,
      af14, af15, afav, af17, af18, af19⟩ := a
    have hb : afav = b := hfav hid
    subst hb
    have hid2 : aid = cid := hid
    subst hid2
    simp [Bool.not_not]
  · simp [hid]

/-- List version of `toggle_write_cancel`. -/
theorem toggle_map_cancel (cid : String) (b : Bool) (l : List Clip)
    (h : ∀ item ∈ l, item.id = cid → item.isFavorite = b) :
    ((l.map (fun item =>
        if item.id = cid then { item with isFavorite := !b } else item)).map
      (fun item =>
        if item.id = cid then { item with isFavorite := !(!b) } else item)) = l := by
  induction l with
  | nil => rfl
  | cons a as ih =>
    simp only [List.map_cons, List.cons.injEq]
    exact ⟨toggle_write_cancel cid b a (h a (List.mem_cons_self a as)),
      ih (fun item hm => h item (List.mem_cons_of_mem a hm))⟩

/-- Option version of `toggle_write_cancel`, for the selected-clip view. -/
theorem toggle_opt_cancel (cid : String) (b : Bool) (o : Option Clip)
    (h : ∀ s, o = some s → s.id = cid → s.isFavorite = b) :
    ((o.map (fun prev =>
        if prev.id = cid then { prev with isFavorite := !b } else prev)).map
      (fun prev =>
        if prev.id = cid then { prev with isFavorite := !(!b) } else prev)) = o := by
  cases o with
  | none => rfl
  | some s => exact congrArg some (toggle_write_cancel cid b s (h s rfl))

/-- C2: the optimistic phase immediately flips `isFavorite` on the clip's
list entry and on the selected-clip view; if the underlying call fails, the
whole state — list, selected-clip view and both cache tiers — is exactly the
pre-toggle state, so no cache entry referencing the intermediate value is
left.  The hypotheses say the list and the selection carry the clip's
pre-toggle flag, which holds since the toggled clip is handed over from that
very state. -/
theorem toggle_favorite_optimistic_and_rollback
    (st : LibState) (clip : Clip) (now : Int)
    (hclips : ∀ item ∈ st.clips, item.id = clip.id →
      item.isFavorite = clip.isFavorite)
    (hsel : ∀ s, st.selectedClip = some s → s.id = clip.id →
      s.isFavorite = clip.isFavorite) :
    (∀ item ∈ (toggleOptimistic st clip).clips, item.id = clip.id →
      item.isFavorite = !clip.isFavorite) ∧
    (∀ s, (toggleOptimistic st clip).selectedClip = some s → s.id = clip.id →
      s.isFavorite = !clip.isFavorite) ∧
    handleToggleFavorite st clip now false = st ∧
    (handleToggleFavorite st clip now false).cache = st.cache := by
  have hopt1 : ∀ item ∈ (toggleOptimistic st clip).clips, item.id = clip.id →
      item.isFavorite = !clip.isFavorite := by
    intro item hm hid
    simp only [toggleOptimistic, List.mem_map] at hm
    obtain ⟨item0, hm0, rfl⟩ := hm
    by_cases h0 : item0.id = clip.id
    · simp [h0]
    · rw [if_neg h0] at hid
      exact absurd hid h0
  have hopt2 : ∀ s, (toggleOptimistic st clip).selectedClip = some s →
      s.id = clip.id → s.isFavorite = !clip.isFavorite := by
    intro s heq hid
    cases hsc : st.selectedClip with
    | none => simp [toggleOptimistic, hsc] at heq
    | some s0 =>
      simp only [toggleOptimistic, hsc, Option.map_some', Option.some.injEq] at heq
      subst heq
      by_cases h0 : s0.id = clip.id
      · simp [h0]
      · rw [if_neg h0] at hid
        exact absurd hid h0
  have hmain : handleToggleFavorite st clip now false = st := by
    obtain ⟨fav, clips, hasMore, nextOff, mainT, vidT, subT, posT, isL, isLM,
      errM, selC, cache⟩ := st
    show LibState.mk fav
      ((clips.map (fun item =>
          if item.id = clip.id then { item with isFavorite := !clip.isFavorite }
          else item)).map
        (fun item =>
          if item.id = clip.id then { item with isFavorite := !(!clip.isFavorite) }
          else item))
      hasMore nextOff mainT vidT subT posT isL isLM errM
      ((selC.map (fun prev =>
          if prev.id = clip.id then { prev with isFavorite := !clip.isFavorite }
          else prev)).map
        (fun prev =>
          if prev.id = clip.id then { prev with isFavorite := !(!clip.isFavorite) }
          else prev))
      cache = LibState.mk fav clips hasMore nextOff mainT vidT subT posT isL isLM
        errM selC cache
    rw [toggle_map_cancel clip.id clip.isFavorite clips hclips,
      toggle_opt_cancel clip.id clip.isFavorite selC hsel]
  exact ⟨hopt1, hopt2, hmain, by rw [hmain]⟩

/-- Witness for C2: toggling the sample clip and failing leaves the state
untouched, and the optimistic phase does set the flag. -/
theorem toggle_favorite_optimistic_and_rollback_witness :
    handleToggleFavorite sampleIdleState sampleClip 0 false = sampleIdleState ∧
    (∀ item ∈ (toggleOptimistic sampleIdleState sampleClip).clips,
      item.id = sampleClip.id → item.isFavorite = !sampleClip.isFavorite) := by
  have h := toggle_favorite_optimistic_and_rollback sampleIdleState sampleClip 0
    (by decide) (by intro s hs; simp [sampleIdleState] at hs)
  exact ⟨h.2.2.1, h.1⟩

/-! ### C6: favorites-only removal -/

/-- Flipping the favorite flag on the entries with the toggled id and then
dropping exactly those entries is the same as dropping them directly. -/
theorem toggle_filter_map (cid : String) (b : Bool) (l : List Clip) :
    ((l.map (fun item =>
        if item.id = cid then { item with isFavorite := b } else item)).filter
      (fun item => item.id ≠ cid)) = l.filter (fun item => item.id ≠ cid) := by
  induction l with
  | nil => rfl
  | cons a as ih =>
    simp only [decide_not] at ih ⊢
    by_cases hid : a.id = cid
    · rw [List.map_cons, if_pos hid]
      simp [hid, ih]
    · rw [List.map_cons, if_neg hid]
      simp [hid, ih]

/-- C6 counterexample to the claim as stated: in favorites-only mode a
successful unfavorite clears the selected-clip view even when the selected
clip is a different clip, so "cleared if and only if the unfavorited clip
was the selected one" fails in the "only if" direction. -/
def sampleFavState : LibState :=
  { favoritesOnly := true, clips := [sampleClip, pageClip],
    hasMoreFromServer := false, nextOffset := 2, mainTagOptions := [],
    videoTagOptions := [], subTagOptions := [], positionOptions := [],
    isLoading := false, isLoadingMore := false, errorMessage := none,
    selectedClip := some sampleClip, cache := emptyCache }

/-- C6 counterexample: unfavoriting `pageClip` while `sampleClip` is
selected still clears the selection. -/
theorem favorites_removal_clears_unrelated_selection :
    sampleFavState.selectedClip = some sampleClip ∧
    sampleClip.id ≠ pageClip.id ∧
    pageClip.isFavorite = true ∧
    (handleToggleFavorite sampleFavState pageClip 0 true).selectedClip = none :=
  ⟨rfl, by decide, rfl, rfl⟩

/-- C6 (amended): in favorites-only mode a successful unfavorite removes the
clip from the accumulated list, persists the filtered list to the cache
immediately, and clears the selected-clip view unconditionally — in
particular whenever the unfavorited clip was the selected one. -/
theorem favorites_unfavorite_removal (st : LibState) (clip : Clip) (now : Int)
    (hfav : st.favoritesOnly = true) (hwas : clip.isFavorite = true) :
    (handleToggleFavorite st clip now true).clips =
      st.clips.filter (fun item => item.id ≠ clip.id) ∧
    (handleToggleFavorite st clip now true).selectedClip = none ∧
    (handleToggleFavorite st clip now true).cache.mem (cacheKey true) = some
      { clips := st.clips.filter (fun item => item.id ≠ clip.id),
        hasMoreFromServer := st.hasMoreFromServer,
        nextOffset := st.nextOffset,
        mainTagOptions := st.mainTagOptions,
        videoTagOptions := st.videoTagOptions,
        subTagOptions := st.subTagOptions,
        positionOptions := st.positionOptions,
        cachedAt := now } := by
  obtain ⟨fav, clips, hasMore, nextOff, mainT, vidT, subT, posT, isL, isLM,
    errM, selC, cache⟩ := st
  obtain ⟨cid, cvid, ctitle, ctype, cdur, ctags, cmain, cvideo, csub, cpos,
    ccourse, csrc, cts, cte, csum, cfav, ccr, cfp, cthumb⟩ := clip
  have hf : fav = true := hfav
  subst hf
  have hc : cfav = true := hwas
  subst hc
  have hfil := toggle_filter_map cid false clips
  have h1 : (handleToggleFavorite
      (LibState.mk true clips hasMore nextOff mainT vidT subT posT isL isLM errM selC cache)
      (Clip.mk cid cvid ctitle ctype cdur ctags cmain cvideo csub cpos ccourse
        csrc cts cte csum true ccr cfp cthumb) now true).clips =
      ((clips.map (fun item => if item.id = cid then { item with isFavorite := false } else item)).filter (fun item => item.id ≠ cid)) := rfl
  have hm : (handleToggleFavorite
      (LibState.mk true clips hasMore nextOff mainT vidT subT posT isL isLM errM selC cache)
      (Clip.mk cid cvid ctitle ctype cdur ctags cmain cvideo csub cpos ccourse
        csrc cts cte csum true ccr cfp cthumb) now true).cache.mem (cacheKey true) =
      some (CachedLibraryState.mk
        ((clips.map (fun item => if item.id = cid then { item with isFavorite := false } else item)).filter (fun item => item.id ≠ cid))
        hasMore nextOff mainT vidT subT posT now) := rfl
  refine ⟨?_, rfl, ?_⟩
  · rw [h1, hfil]
  · rw [hm, hfil]

/-- Witness for C6 at the concrete favorites-only state. -/
theorem favorites_unfavorite_removal_witness :
    (handleToggleFavorite sampleFavState pageClip 0 true).clips = [sampleClip] ∧
    (handleToggleFavorite sampleFavState pageClip 0 true).selectedClip = none := by
  have h := favorites_unfavorite_removal sampleFavState pageClip 0 rfl rfl
  refine ⟨?_, h.2.1⟩
  rw [h.1]
  decide

/-! ### C7: activation with a fresh cache -/

/-- A cache snapshot used for activation checks. -/
def freshCachedEntry : CachedLibraryState :=
  { clips := [sampleClip, pageClip], hasMoreFromServer := false,
    nextOffset := 60, mainTagOptions := ["armbar", "sweep"],
    videoTagOptions := ["fundamentals"], subTagOptions := ["submission", "sweep"],
    positionOptions := ["closed guard"], cachedAt := 0 }

/-- A cache already holding a fresh all-clips snapshot. -/
def freshCache : CacheState :=
  writeCachedState false freshCachedEntry emptyCache

/-- A freshly mounted all-clips component over `freshCache`. -/
def sampleMountState : LibState :=
  { favoritesOnly := false, clips := [], hasMoreFromServer := false,
    nextOffset := 0, mainTagOptions := [], videoTagOptions := [],
    subTagOptions := [], positionOptions := [], isLoading := true,
    isLoadingMore := false, errorMessage := none, selectedClip := none,
    cache := freshCache }

/-- C7 counterexample to the claim as stated: even with a fresh cache hit,
activation still issues the unconditional `fetchLibraryMeta` request, so
"no network request at all during activation" fails. -/
theorem activation_issues_meta_despite_cache_hit :
    (readCachedState sampleMountState.favoritesOnly 1 sampleMountState.cache).fst =
      some freshCachedEntry ∧
    activationRequests sampleMountState 1 ≠ [] ∧
    Request.meta ∈ activationRequests sampleMountState 1 := by
  exact ⟨rfl, by decide, by decide⟩

/-- C7 (amended): on activation with a fresh cache hit the controller
hydrates every accumulated field from the snapshot, moves directly to idle,
and issues no paginated clip fetch — the only request issued during
activation is the unconditional metadata fetch. -/
theorem activation_cache_hit_hydrates (st : LibState) (now : Int)
    (e : CachedLibraryState)
    (hhit : (readCachedState st.favoritesOnly now st.cache).fst = some e) :
    activationRequests st now = [Request.meta] ∧
    activationHydrate st now = hydrateFromCache st e ∧
    (activationHydrate st now).clips = e.clips ∧
    (activationHydrate st now).hasMoreFromServer = e.hasMoreFromServer ∧
    (activationHydrate st now).nextOffset = e.nextOffset ∧
    (activationHydrate st now).mainTagOptions = e.mainTagOptions ∧
    (activationHydrate st now).videoTagOptions = e.videoTagOptions ∧
    (activationHydrate st now).subTagOptions = e.subTagOptions ∧
    (activationHydrate st now).positionOptions = e.positionOptions ∧
    (activationHydrate st now).isLoading = false := by
  have h2 : activationHydrate st now = hydrateFromCache st e := by
    simp [activationHydrate, hhit]
  exact ⟨by simp [activationRequests, hhit], h2,
    by rw [h2]; rfl, by rw [h2]; rfl, by rw [h2]; rfl, by rw [h2]; rfl,
    by rw [h2]; rfl, by rw [h2]; rfl, by rw [h2]; rfl, by rw [h2]; rfl⟩

/-- Witness for C7 at the concrete mounted state with a fresh cache. -/
theorem activation_cache_hit_hydrates_witness :
    activationRequests sampleMountState 1 = [Request.meta] ∧
    (activationHydrate sampleMountState 1).clips = freshCachedEntry.clips ∧
    (activationHydrate sampleMountState 1).isLoading = false := by
  have h := activation_cache_hit_hydrates sampleMountState 1 freshCachedEntry rfl
  exact ⟨h.1, h.2.2.1, h.2.2.2.2.2.2.2.2.2⟩

/-! ### C1: faceted filtering -/

/-- Membership form of `List.contains`. -/
theorem contains_iff (l : List String) (x : String) :
    l.contains x = true ↔ x ∈ l :=
  List.elem_iff

/-- Membership through one conditional filter stage of the pipeline. -/
theorem mem_stage (cond : Prop) [Decidable cond] (l : List Clip)
    (p : Clip → Bool) (c : Clip) :
    c ∈ (if cond then l else l.filter p) ↔ c ∈ l ∧ (¬cond → p c = true) := by
  by_cases h : cond
  · simp [h]
  · simp [h, List.mem_filter]

/-- Membership form of the position-facet predicate of `filteredClips`. -/
theorem position_pred_iff (pos : Option String) (sel : List String) :
    ((match pos with
      | none => false
      | some p => if p = "" then false else sel.contains p) = true) ↔
    ∃ p, pos = some p ∧ p ≠ "" ∧ p ∈ sel := by
  cases pos with
  | none => simp
  | some p =>
    by_cases hp : p = ""
    · simp [hp]
    · simp [hp, contains_iff]

/-- C1 (amended): a clip is in the filtered result exactly when it is in the
accumulated list and passes every facet that has at least one selection —
OR-within-facet, AND-across-facets, no-selection means no constraint — with
the position facet additionally requiring the clip's position to be present
and non-empty (JS truthiness of `clip.position`).  Holds for every sort
mode, since sorting permutes the filtered list. -/
theorem filtered_clips_membership (clip : Clip) (clips : List Clip)
    (searchQuery : String) (selectedTypes selectedMainTags selectedVideoTags
      selectedSubTags selectedPositions : List String) (sortMode : SortMode) :
    clip ∈ filteredClips clips searchQuery selectedTypes selectedMainTags
      selectedVideoTags selectedSubTags selectedPositions sortMode ↔
    clip ∈ clips ∧ codeAccepts clip searchQuery selectedTypes selectedMainTags
      selectedVideoTags selectedSubTags selectedPositions := by
  have hsort : ∀ l : List Clip, clip ∈ (match sortMode with
      | SortMode.shortest =>
        sortLe (fun (a b : Clip) => decide (a.duration ≤ b.duration)) l
      | SortMode.longest =>
        sortLe (fun (a b : Clip) => decide (b.duration ≤ a.duration)) l
      | SortMode.default => l) ↔ clip ∈ l := by
    intro l
    cases sortMode <;> simp [mem_sortLe]
  simp only [filteredClips]
  rw [hsort, mem_stage, mem_stage, mem_stage, mem_stage, mem_stage, mem_stage]
  simp only [codeAccepts, and_assoc, List.any_eq_true, contains_iff,
    position_pred_iff]

/-- A clip whose position is the empty string. -/
def emptyPosClip : Clip :=
  { id := "c3", videoId := "v3", title := "Back take",
    type := "Concept", duration := 40,
    tags := ["back"], mainTags := ["back take"],
    videoTags := [], subTags := [],
    position := some "", sourceCourse := "Course B",
    sourceVideo := none, timestampStart := "00:00:10",
    timestampEnd := "00:00:50", summary := "Concept on taking the back.",
    isFavorite := false, createdAt := "2024-02-01", filePath := "clips/c3.mp4",
    thumbnailUrl := none }

/-- C1 counterexample to the claim as stated: with the empty string selected
in the position facet and a clip whose position is the empty string, the
clip matches a selected value of every active facet (so the claim admits
it), yet the code's filter excludes it, because the position filter requires
`clip.position` to be truthy and the empty string is falsy in JS. -/
theorem filtered_clips_claim_counterexample :
    claimAccepts emptyPosClip "" [] [] [] [] [""] ∧
    emptyPosClip ∉ filteredClips [emptyPosClip] "" [] [] [] [] [""]
      SortMode.default := by
  constructor
  · exact ⟨fun h => absurd rfl h, fun h => absurd rfl h, fun h => absurd rfl h,
      fun h => absurd rfl h, fun h => absurd rfl h,
      fun _ => ⟨"", rfl, by decide⟩⟩
  · decide

/-- Witness for C1's amended theorem: a concrete clip passing a search, a
type selection, a main-tag selection and a position selection is in the
filtered result. -/
theorem filtered_clips_membership_witness :
    sampleClip ∈ filteredClips [sampleClip, pageClip, emptyPosClip] "armbar"
      ["Technique"] ["armbar"] [] [] ["closed guard"] SortMode.default := by
  refine (filtered_clips_membership sampleClip [sampleClip, pageClip, emptyPosClip]
    "armbar" ["Technique"] ["armbar"] [] [] ["closed guard"]
    SortMode.default).mpr ⟨by decide, ?_, ?_, ?_, ?_, ?_, ?_⟩
  · intro h
    decide
  · intro h
    decide
  · intro h
    exact ⟨"armbar", by decide, by decide⟩
  · intro h
    exact absurd rfl h
  · intro h
    exact absurd rfl h
  · intro h
    exact ⟨"closed guard", rfl, by decide, by decide⟩

end BjjClipping
